import Mathlib

/-!
Verification of the container monitor (`Pythonscripts/metrics.py`) and the
load injector (`Pythonscripts/container_load_test.py`).

Numeric values flowing through the monitor (cumulative CPU counters, memory
usage and limit, the derived percentages) are modelled as rationals; the
Python code performs exact integer reads followed by float division, and the
properties under study are about the algebraic form of the computation and
its guards, not about rounding.  Fallible calls (a stats fetch hitting a
zero memory limit, an `exec_run` raising) are modelled with `Except`.
-/

/-- One fetched stats payload for one container, as read by
`get_container_stats` in `metrics.py`: the previous and current cumulative
CPU counters, the per-core usage list (only its length is used), and the
memory usage/limit pair. -/
structure RawStatsSample where
  pre_cpu_total_usage : ℚ
  cur_cpu_total_usage : ℚ
  pre_system_cpu_usage : ℚ
  cur_system_cpu_usage : ℚ
  percpu_usage : List ℚ
  memory_usage : ℚ
  memory_limit : ℚ

/-- The CPU-percentage computation of `get_container_stats`
(`metrics.py` lines 43-54): `cpu_usage` starts at `0.0` and is replaced by
`(cpu_delta / system_delta) * len(percpu_usage) * 100.0` only when both
`system_delta > 0.0` and `cpu_delta > 0.0`. -/
def cpu_usage_calc (s : RawStatsSample) : ℚ :=
  let cpu_delta := s.cur_cpu_total_usage - s.pre_cpu_total_usage
  let system_delta := s.cur_system_cpu_usage - s.pre_system_cpu_usage
  if system_delta > 0 ∧ cpu_delta > 0 then
    (cpu_delta / system_delta) * (s.percpu_usage.length : ℚ) * 100
  else
    0

/-- `get_container_stats` of `metrics.py`: returns the `(cpu_usage, mem_usage)`
pair.  The memory percentage `usage / limit * 100.0` is computed with no
guard on the limit, so a zero `memory_limit` raises `ZeroDivisionError`,
modelled as the error branch. -/
def get_container_stats (s : RawStatsSample) : Except String (ℚ × ℚ) :=
  let cpu_usage := cpu_usage_calc s
  if s.memory_limit = 0 then
    Except.error "ZeroDivisionError"
  else
    Except.ok (cpu_usage, (s.memory_usage / s.memory_limit) * 100)

/-- `CPU_THRESHOLD` constant of `metrics.py`. -/
def CPU_THRESHOLD : ℚ := 70

/-- `MEM_THRESHOLD` constant of `metrics.py`. -/
def MEM_THRESHOLD : ℚ := 70

/-- The alert condition of `monitor_containers` (`metrics.py` line 73):
`cpu_usage > CPU_THRESHOLD or mem_usage > MEM_THRESHOLD`, parametrised by
the two thresholds. -/
def threshold_alert (cpu mem cpu_threshold mem_threshold : ℚ) : Bool :=
  decide (cpu > cpu_threshold) || decide (mem > mem_threshold)

/-- Observable outcome of one iteration of the `monitor_containers` loop
for one container: a caught fetch error, an alert email dispatch, or the
healthy message. -/
inductive ContainerReport where
  | fetchError (msg : String)
  | alertSent (cpu mem : ℚ)
  | healthy (cpu mem : ℚ)
deriving DecidableEq

/-- One iteration of the `monitor_containers` loop (`metrics.py` lines
66-78): fetch the stats inside a `try`, report the caught exception on
failure, otherwise alert when the threshold condition holds. -/
def monitor_one (s : RawStatsSample) : ContainerReport :=
  match get_container_stats s with
  | Except.error e => ContainerReport.fetchError e
  | Except.ok (cpu_usage, mem_usage) =>
      if threshold_alert cpu_usage mem_usage CPU_THRESHOLD MEM_THRESHOLD then
        ContainerReport.alertSent cpu_usage mem_usage
      else
        ContainerReport.healthy cpu_usage mem_usage

/-- `monitor_containers` of `metrics.py`: one sequential pass over the
listed containers, each processed independently. -/
def monitor_containers (l : List RawStatsSample) : List ContainerReport :=
  l.map monitor_one

/-- Concrete sample matching spec scenario 1 and 2: `cpu_delta = 50`,
`system_delta = 200`, four cores, memory at 70%. -/
def sampleA : RawStatsSample :=
  ⟨100, 150, 1000, 1200, [0, 0, 0, 0], 700000000, 1000000000⟩

/-- Concrete degenerate sample with `memory_limit = 0`. -/
def sampleZeroLimit : RawStatsSample :=
  ⟨0, 0, 0, 0, [], 5, 0⟩

/-- Concrete healthy sample: zero CPU deltas, memory at 50%. -/
def sampleB : RawStatsSample :=
  ⟨0, 0, 0, 0, [0], 1, 2⟩

/-- Claim C1: for every stats sample, the computed CPU utilization equals
`(cpu_delta / system_delta) * core_count * 100` when both `system_delta > 0`
and `cpu_delta > 0`, and equals exactly `0` when `system_delta ≤ 0` or
`cpu_delta ≤ 0`. -/
theorem cpu_usage_formula_and_guard (s : RawStatsSample) :
    (s.cur_system_cpu_usage - s.pre_system_cpu_usage > 0 ∧
        s.cur_cpu_total_usage - s.pre_cpu_total_usage > 0 →
      cpu_usage_calc s =
        ((s.cur_cpu_total_usage - s.pre_cpu_total_usage) /
            (s.cur_system_cpu_usage - s.pre_system_cpu_usage)) *
          (s.percpu_usage.length : ℚ) * 100) ∧
    (s.cur_system_cpu_usage - s.pre_system_cpu_usage ≤ 0 ∨
        s.cur_cpu_total_usage - s.pre_cpu_total_usage ≤ 0 →
      cpu_usage_calc s = 0) := by
  constructor
  · intro h
    simp only [cpu_usage_calc, if_pos h]
  · intro h
    have hn : ¬ (s.cur_system_cpu_usage - s.pre_system_cpu_usage > 0 ∧
        s.cur_cpu_total_usage - s.pre_cpu_total_usage > 0) := by
      rcases h with h | h
      · exact fun hc => absurd hc.1 (not_lt.mpr h)
      · exact fun hc => absurd hc.2 (not_lt.mpr h)
    simp only [cpu_usage_calc, if_neg hn]

/-- Witness for C1 at spec scenario 1: deltas 50 and 200 over four cores
give exactly 100. -/
theorem cpu_usage_formula_and_guard_witness :
    (sampleA.cur_system_cpu_usage - sampleA.pre_system_cpu_usage > 0 ∧
      sampleA.cur_cpu_total_usage - sampleA.pre_cpu_total_usage > 0) ∧
    cpu_usage_calc sampleA = 100 := by
  have h1 : sampleA.cur_system_cpu_usage - sampleA.pre_system_cpu_usage > 0 := by
    norm_num [sampleA]
  have h2 : sampleA.cur_cpu_total_usage - sampleA.pre_cpu_total_usage > 0 := by
    norm_num [sampleA]
  refine ⟨⟨h1, h2⟩, ?_⟩
  rw [(cpu_usage_formula_and_guard sampleA).1 ⟨h1, h2⟩]
  norm_num [sampleA]

/-- Claim C2: the monitor's alert condition holds if and only if the CPU
percentage strictly exceeds the CPU threshold or the memory percentage
strictly exceeds the memory threshold; in particular a value exactly equal
to its threshold never alerts. -/
theorem alert_iff_strictly_above (cpu mem ct mt : ℚ) :
    (threshold_alert cpu mem ct mt = true ↔ cpu > ct ∨ mem > mt) ∧
    threshold_alert ct mt ct mt = false := by
  constructor
  · simp [threshold_alert]
  · simp [threshold_alert]

/-- Claim C3: a container whose memory limit is zero produces a fetch
error for that container alone; every container before and after it in the
pass is processed exactly as it would be on its own. -/
theorem zero_limit_isolated_fetch_error
    (l1 l2 : List RawStatsSample) (s : RawStatsSample)
    (h : s.memory_limit = 0) :
    monitor_containers (l1 ++ s :: l2) =
      monitor_containers l1 ++
        ContainerReport.fetchError "ZeroDivisionError" :: monitor_containers l2 := by
  have hs : monitor_one s = ContainerReport.fetchError "ZeroDivisionError" := by
    simp [monitor_one, get_container_stats, h]
  simp [monitor_containers, hs]

/-- Witness for C3: a pass over a good container, the zero-limit
container and another good container reports the fetch error in the middle
and leaves the neighbours untouched. -/
theorem zero_limit_isolated_fetch_error_witness :
    sampleZeroLimit.memory_limit = 0 ∧
    monitor_containers ([sampleA] ++ sampleZeroLimit :: [sampleB]) =
      monitor_containers [sampleA] ++
        ContainerReport.fetchError "ZeroDivisionError" ::
          monitor_containers [sampleB] :=
  ⟨rfl, zero_limit_isolated_fetch_error [sampleA] [sampleB] sampleZeroLimit rfl⟩

/-- The capability probe at the top of `run_stress`
(`container_load_test.py` lines 8-13): `exec_run("which stress-ng")` is
attempted inside a `try`; on success `has_stress_ng` is the test
`exit_code == 0`, and any exception caught by the `except` arm sets
`has_stress_ng = False`.  The argument is the outcome of the probe call:
`Except.ok` carries the reported exit code (absent codes compare unequal
to 0, as `None == 0` is false), `Except.error` the exception message. -/
def probe_has_stress_ng (exec_check : Except String (Option Int)) : Bool :=
  match exec_check with
  | Except.ok exit_code => exit_code == some 0
  | Except.error _ => false

/-- The command-selection block of `run_stress`
(`container_load_test.py` lines 15-30): mode is the raw string from the
CLI, matched against `"cpu"`, then `"mem"`, with everything else taking
the `else` (both) branch, separately under the tool and fallback arms. -/
def run_stress_cmd (mode : String) (duration : Int) (has_stress_ng : Bool) : String :=
  if has_stress_ng then
    if mode = "cpu" then
      "stress-ng --cpu 4 --timeout " ++ toString duration
    else if mode = "mem" then
      "stress-ng --vm 2 --vm-bytes 90% --timeout " ++ toString duration
    else
      "stress-ng --cpu 4 --vm 2 --vm-bytes 90% --timeout " ++ toString duration
  else
    if mode = "cpu" then
      "python3 -c \x27import threading,math;[threading.Thread(target=lambda: [math.sqrt(i) for i in range(10**7)]).start() for _ in range(4)]\x27"
    else if mode = "mem" then
      "python3 -c \x27a=[]\nwhile True: a.append(\"x\"*10**6)\x27"
    else
      "python3 -c \x27import threading,math;[threading.Thread(target=lambda: [math.sqrt(i) for i in range(10**7)]).start() for _ in range(4)]\x27"

/-- Observable outcome of dispatching one resolved command: launch
reported as success, or a failure message carrying the diagnostic text. -/
inductive DispatchReport where
  | success
  | failure (diag : String)
deriving DecidableEq

/-- The exit-status check after `exec_run(cmd, detach=True)` in
`run_stress` (`container_load_test.py` lines 36-39): a failure with the
captured output when `exit_code not in (0, None)`, success otherwise. -/
def dispatch_stress (exit_code : Option Int) (output : String) : DispatchReport :=
  if ¬ (exit_code = some 0 ∨ exit_code = none) then
    DispatchReport.failure output
  else
    DispatchReport.success

/-- One dispatch attempt including the `try`/`except` around `exec_run`
(`container_load_test.py` lines 34-41): an exception is caught and
reported as a failure carrying its message; nothing propagates. -/
def dispatch_container (r : Except String (Option Int × String)) : DispatchReport :=
  match r with
  | Except.ok (exit_code, output) => dispatch_stress exit_code output
  | Except.error e => DispatchReport.failure e

/-- The per-container loop of `main` (`container_load_test.py` lines
53-59): each target container is handled inside its own `try`, so every
entry of the list yields its own report. -/
def dispatch_all (rs : List (Except String (Option Int × String))) : List DispatchReport :=
  rs.map dispatch_container

/-- Claim C4: with the tool present and a positive duration, CPU mode
selects the 4-worker tool command with the given timeout, MEMORY mode the
2-worker 90%-memory command, and BOTH mode the single invocation carrying
both flag sets. -/
theorem tool_commands_by_mode (d : Int) (_h : 0 < d) :
    run_stress_cmd "cpu" d true = "stress-ng --cpu 4 --timeout " ++ toString d ∧
    run_stress_cmd "mem" d true = "stress-ng --vm 2 --vm-bytes 90% --timeout " ++ toString d ∧
    run_stress_cmd "both" d true = "stress-ng --cpu 4 --vm 2 --vm-bytes 90% --timeout " ++ toString d :=
  ⟨rfl, rfl, rfl⟩

/-- Witness for C4 at duration 30 (spec scenario 3). -/
theorem tool_commands_by_mode_witness :
    0 < (30 : Int) ∧
    (run_stress_cmd "cpu" 30 true = "stress-ng --cpu 4 --timeout " ++ toString (30 : Int) ∧
     run_stress_cmd "mem" 30 true = "stress-ng --vm 2 --vm-bytes 90% --timeout " ++ toString (30 : Int) ∧
     run_stress_cmd "both" 30 true = "stress-ng --cpu 4 --vm 2 --vm-bytes 90% --timeout " ++ toString (30 : Int)) :=
  ⟨by decide, tool_commands_by_mode 30 (by decide)⟩

/-- Claim C5: in the fallback branch, BOTH mode selects exactly the CPU
fallback command, for every duration: no memory component. -/
theorem fallback_both_eq_cpu (d : Int) :
    run_stress_cmd "both" d false = run_stress_cmd "cpu" d false :=
  rfl

/-- Claim C6: the capability probe is a total boolean function of the
probe outcome: on a successful probe it answers true exactly when the
exit code is 0, and on any exception it answers false. -/
theorem probe_true_iff_exit_zero (exit_code : Option Int) (e : String) :
    (probe_has_stress_ng (Except.ok exit_code) = true ↔ exit_code = some 0) ∧
    probe_has_stress_ng (Except.error e) = false := by
  constructor
  · simp [probe_has_stress_ng]
  · rfl

/-- Claim C7: a dispatch reports success exactly when the exit code is 0
or absent, reports the captured output on any other code, and an exec
exception for one container leaves every other container's report
unchanged. -/
theorem dispatch_success_iff_and_isolated
    (exit_code : Option Int) (output : String)
    (l1 l2 : List (Except String (Option Int × String))) (e : String) :
    (dispatch_stress exit_code output = DispatchReport.success ↔
      exit_code = some 0 ∨ exit_code = none) ∧
    (exit_code ≠ some 0 → exit_code ≠ none →
      dispatch_stress exit_code output = DispatchReport.failure output) ∧
    dispatch_all (l1 ++ Except.error e :: l2) =
      dispatch_all l1 ++ DispatchReport.failure e :: dispatch_all l2 := by
  refine ⟨?_, ?_, ?_⟩
  · constructor
    · intro h
      by_contra hc
      push_neg at hc
      simp [dispatch_stress, hc.1, hc.2] at h
    · intro h
      rcases h with h | h <;> simp [dispatch_stress, h]
  · intro h1 h2
    simp [dispatch_stress, h1, h2]
  · simp [dispatch_all, dispatch_container]

/-- Witness for C7: exit code 1 with captured output "boom" is reported
as a failure carrying "boom". -/
theorem dispatch_success_iff_and_isolated_witness :
    (some (1 : Int) ≠ some 0 ∧ (some (1 : Int) : Option Int) ≠ none) ∧
    dispatch_stress (some 1) "boom" = DispatchReport.failure "boom" :=
  ⟨⟨by decide, by decide⟩,
    (dispatch_success_iff_and_isolated (some 1) "boom" [] [] "x").2.1
      (by decide) (by decide)⟩

/-- Claim C8: the fallback MEMORY command is one fixed string, the
unbounded appending loop, identical across any two durations. -/
theorem fallback_mem_duration_independent (d1 d2 : Int) :
    run_stress_cmd "mem" d1 false = run_stress_cmd "mem" d2 false :=
  rfl

/-- Claim C9: command selection is a pure function of `(mode, duration,
has_tool)`: two invocations with equal inputs yield equal command
strings. -/
theorem cmd_selection_deterministic
    (m1 m2 : String) (d1 d2 : Int) (t1 t2 : Bool)
    (hm : m1 = m2) (hd : d1 = d2) (ht : t1 = t2) :
    run_stress_cmd m1 d1 t1 = run_stress_cmd m2 d2 t2 := by
  rw [hm, hd, ht]

/-- Witness for C9 at `("cpu", 60, true)`. -/
theorem cmd_selection_deterministic_witness :
    run_stress_cmd "cpu" 60 true = run_stress_cmd "cpu" 60 true :=
  cmd_selection_deterministic "cpu" "cpu" 60 60 true true rfl rfl rfl

/-- Claim C10: every mode other than `"cpu"` and `"mem"` falls through to
the `else` arm and behaves exactly as BOTH mode, under both the tool and
the fallback branch; the selection logic rejects nothing. -/
theorem unknown_mode_behaves_as_both
    (mode : String) (h1 : mode ≠ "cpu") (h2 : mode ≠ "mem")
    (d : Int) (t : Bool) :
    run_stress_cmd mode d t = run_stress_cmd "both" d t := by
  cases t <;> simp [run_stress_cmd, h1, h2]

/-- Witness for C10 at the unrecognized mode `"weird"`. -/
theorem unknown_mode_behaves_as_both_witness :
    ("weird" ≠ "cpu" ∧ "weird" ≠ "mem") ∧
    run_stress_cmd "weird" 5 false = run_stress_cmd "both" 5 false :=
  ⟨⟨by decide, by decide⟩,
    unknown_mode_behaves_as_both "weird" (by decide) (by decide) 5 false⟩
